import Mathlib

/-!
Shallow embedding of the fault-injection-library firmware core:
the RP2040 measurement probe (`projects/rp2040-glitching/rpi-program/main.cpp`)
and the STM8L bootloader-path probe (`projects/stm8l/profiling/check_empty.c`).

The RP2040 program is embedded as a small event-trace machine: each
externally observable action of one measurement cycle (interrupt-mask save,
GPIO writes, the unrolled assembly workload, interrupt-mask restore, serial
report) is an event, and a state-transition function executes those events
over a machine state.  The STM8L program is embedded both as a state
function on the port-B registers and as an event trace of its observable
actions (trigger edge, address loads, bit-set instructions).
-/

namespace RP2040

/-- The instructions of the Cortex-M0+ fragment the measured window can
contain.  `addImm1` is `add r0, r0, #1`; the other constructors exist so
that "no branches, no memory accesses, no calls inside the measured
window" is a contentful statement about the instruction list. -/
inductive ArmInstr where
  | addImm1
  | branch
  | memAccess
  | call
deriving DecidableEq

/-- `#define add1 "add r0, r0, #1;"` -/
def add1 : List ArmInstr := [ArmInstr.addImm1]

/-- `#define add2 add1 add1` -/
def add2 : List ArmInstr := add1 ++ add1

/-- `#define add4 add2 add2` -/
def add4 : List ArmInstr := add2 ++ add2

/-- `#define add8 add4 add4` -/
def add8 : List ArmInstr := add4 ++ add4

/-- `#define add16 add8 add8` -/
def add16 : List ArmInstr := add8 ++ add8

/-- `#define add32 add16 add16` -/
def add32 : List ArmInstr := add16 ++ add16

/-- `#define add64 add32 add32` -/
def add64 : List ArmInstr := add32 ++ add32

/-- `#define add128 add64 add64` -/
def add128 : List ArmInstr := add64 ++ add64

/-- `#define add256 add128 add128` -/
def add256 : List ArmInstr := add128 ++ add128

/-- Effect of one instruction of the measured window on the 32-bit
register `r0` (machine integers are modelled as `Nat` reduced mod `2^32`).
Only `addImm1` touches `r0`. -/
def execInstr (r0 : Nat) : ArmInstr → Nat
  | ArmInstr.addImm1 => (r0 + 1) % 2 ^ 32
  | ArmInstr.branch => r0
  | ArmInstr.memAccess => r0
  | ArmInstr.call => r0

/-- The value stored into `counter` by the inline-assembly block of
`unrolled_loop`: `ldr r0, =0` zeroes the register, the `add256` sequence
runs, and `str r0, %[cnt]` stores the result. -/
def asm_block_result : Nat := add256.foldl execInstr 0

/-- `PICO_DEFAULT_LED_PIN` (the on-board LED GPIO of the Pico board). -/
def PICO_DEFAULT_LED_PIN : Nat := 25

/-- Observable events of one RP2040 measurement cycle. -/
inductive Event where
  /-- `save_and_disable_interrupts()`: `MRS %0, PRIMASK; CPSID i`. -/
  | saveDisable
  /-- `gpio_put(pin, value)`. -/
  | gpioPut (pin : Nat) (value : Bool)
  /-- The inline-assembly workload block of `unrolled_loop`. -/
  | workload
  /-- `restore_interrupts(primask)`: `MSR PRIMASK, %0`. -/
  | restore
  /-- `std::cout << "XXX" << counter << "YYY" << counter << "ZZZ"`. -/
  | report
deriving DecidableEq

/-- Machine state for the RP2040 event machine.  `primask = 1` means all
maskable interrupts are disabled; `savedPrimask` is the local variable
`primask` of `main` that holds the snapshot. -/
structure RpState where
  primask : Nat
  savedPrimask : Nat
  led : Bool
  gpio0 : Bool
  counter : Nat
  output : List String
deriving DecidableEq

/-- The serial reply line built by `main` for a counter value `c`:
`"XXX" << c << "YYY" << c << "ZZZ"`. -/
def reply (c : Nat) : String :=
  "XXX" ++ toString c ++ "YYY" ++ toString c ++ "ZZZ"

/-- One step of the RP2040 event machine, translated from the source:
the save captures `PRIMASK` and then sets it (interrupts disabled), the
restore writes the snapshot back, `gpio_put` drives a pin, the workload
block computes into `counter`, and the report appends the reply line. -/
def step (s : RpState) : Event → RpState
  | Event.saveDisable => { s with savedPrimask := s.primask, primask := 1 }
  | Event.restore => { s with primask := s.savedPrimask }
  | Event.gpioPut pin v =>
      if pin = 0 then { s with gpio0 := v }
      else if pin = PICO_DEFAULT_LED_PIN then { s with led := v }
      else s
  | Event.workload => { s with counter := asm_block_result }
  | Event.report => { s with output := s.output ++ [reply s.counter] }

/-- Run a list of events from a state. -/
def run (s : RpState) (es : List Event) : RpState := es.foldl step s

/-- The event trace of `unrolled_loop`: LED high, GPIO 0 high, the
assembly workload, GPIO 0 low, LED low. -/
def unrolled_loop_trace : List Event :=
  [ Event.gpioPut PICO_DEFAULT_LED_PIN true,
    Event.gpioPut 0 true,
    Event.workload,
    Event.gpioPut 0 false,
    Event.gpioPut PICO_DEFAULT_LED_PIN false ]

/-- The event trace of one iteration of the `while (true)` loop of
`main`, after `std::getline` has returned a line:
`save_and_disable_interrupts`, then `unrolled_loop`, then
`restore_interrupts`, then the reply line is printed. -/
def cycle_trace : List Event :=
  [Event.saveDisable] ++ unrolled_loop_trace ++ [Event.restore] ++ [Event.report]

/-- The `while (true)` loop of `main` over a finite list of received
input lines: each received line triggers one measurement cycle.  The
line's content is never inspected by the source, which the embedding
makes literal by ignoring the bound line. -/
def main_loop (lines : List String) (s : RpState) : RpState :=
  lines.foldl (fun st _line => run st cycle_trace) s

/-- The machine state at the top of the `while (true)` loop on a freshly
booted board: both GPIOs were initialised low, interrupts enabled
(`PRIMASK = 0`), nothing printed yet (the banner lines are not
measurement replies and are not modelled as `output`). -/
def initState : RpState :=
  { primask := 0, savedPrimask := 0, led := false, gpio0 := false,
    counter := 0, output := [] }

/-- The reply-format contract of the spec, as a predicate on a reply
line: the line decomposes as `XXX`, a non-empty digit string, `YYY`, the
same digit string again, `ZZZ` — exactly the strings matched by the
regular expression `^XXX([0-9]+)YYY\1ZZZ$`, with `d` the capture group. -/
def matchesReplyPattern (s : String) : Prop :=
  ∃ d : String, d ≠ "" ∧ d.data.all Char.isDigit = true ∧
    s = "XXX" ++ d ++ "YYY" ++ d ++ "ZZZ"

end RP2040

namespace STM8L

/-- `#define TRIG_PIN (1 << 1)` — PB1. -/
def TRIG_PIN : Nat := 1 <<< 1

/-- `#define SUCCESS_PIN (1 << 4)` — PB4. -/
def SUCCESS_PIN : Nat := 1 <<< 4

/-- `#define EXPECTED_PIN (1 << 5)` — PB5. -/
def EXPECTED_PIN : Nat := 1 <<< 5

/-- The STM8L registers `check_empty.c` writes.  Each register is one
byte, modelled as a `Nat` whose low 8 bits are the hardware bits. -/
structure Stm8lState where
  CLK_PCKENR1 : Nat
  PB_DDR : Nat
  PB_CR1 : Nat
  PB_CR2 : Nat
  PB_ODR : Nat
deriving DecidableEq

/-- The `rdp_check` arm of the assembly block:
`bset 0x5005, #0x4` sets the SUCCESS pin (PB4) in the port-B output
data register, then `jra asm_done`. -/
def rdp_check (s : Stm8lState) : Stm8lState :=
  { s with PB_ODR := s.PB_ODR ||| 1 <<< 4 }

/-- The `enter_app` arm of the assembly block:
`bset 0x5005, #0x5` sets the EXPECTED pin (PB5) in the port-B output
data register, then falls through to `asm_done`. -/
def enter_app (s : Stm8lState) : Stm8lState :=
  { s with PB_ODR := s.PB_ODR ||| 1 <<< 5 }

/-- The `bootl_check` arm: `ld A, 0x480b; cp A, #0x55; jreq rdp_check;
jra enter_app`.  `mem480b` is the byte read at the option-byte alias. -/
def bootl_check (mem480b : Nat) (s : Stm8lState) : Stm8lState :=
  if mem480b = 0x55 then rdp_check s else enter_app s

/-- The decision tree of the assembly block, from `ld A, 0x8000` to
`asm_done`: `cp A, #0x82; jreq bootl_check; cp A, #0xac;
jreq bootl_check; jra rdp_check`.  `mem8000` is the byte read at flash
address `0x8000`. -/
def decision_tree (mem8000 mem480b : Nat) (s : Stm8lState) : Stm8lState :=
  if mem8000 = 0x82 then bootl_check mem480b s
  else if mem8000 = 0xac then bootl_check mem480b s
  else rdp_check s

/-- The whole of `main` in `check_empty.c`, as a function of the two
probed bytes, the `ALWAYS_SUCCESS` build flag, and the register state at
entry: enable peripheral clocks, configure PB1/PB4/PB5 as push-pull fast
outputs by OR-ing the mask into `PB_DDR`, `PB_CR1`, `PB_CR2`, raise the
trigger on PB1 via `PB_ODR |= TRIG_PIN`, run the assembly decision tree,
and, only when built with `ALWAYS_SUCCESS`, unconditionally
`bset 0x5005, #0x4` afterwards. -/
def check_empty_run (mem8000 mem480b : Nat) (always_success : Bool)
    (s0 : Stm8lState) : Stm8lState :=
  let s1 := { s0 with CLK_PCKENR1 := 0xff }
  let s2 := { s1 with PB_DDR := s1.PB_DDR ||| (TRIG_PIN ||| SUCCESS_PIN ||| EXPECTED_PIN) }
  let s3 := { s2 with PB_CR1 := s2.PB_CR1 ||| (TRIG_PIN ||| SUCCESS_PIN ||| EXPECTED_PIN) }
  let s4 := { s3 with PB_CR2 := s3.PB_CR2 ||| (TRIG_PIN ||| SUCCESS_PIN ||| EXPECTED_PIN) }
  let s5 := { s4 with PB_ODR := s4.PB_ODR ||| TRIG_PIN }
  let s6 := decision_tree mem8000 mem480b s5
  if always_success then { s6 with PB_ODR := s6.PB_ODR ||| 1 <<< 4 } else s6

/-- The register state at reset: all modelled registers read 0 (the
port-B output data register resets to 0, so every pin starts low). -/
def resetState : Stm8lState :=
  { CLK_PCKENR1 := 0, PB_DDR := 0, PB_CR1 := 0, PB_CR2 := 0, PB_ODR := 0 }

/-- Observable events of one STM8L run, for the temporal claims. -/
inductive SEvent where
  /-- `PB_ODR |= TRIG_PIN`: the PB1 trigger edge. -/
  | trigHigh
  /-- `ld A, addr`: a memory load of the probed byte at `addr`. -/
  | load (addr : Nat)
  /-- `bset addr, #bit`: set bit `bit` of the register at `addr`. -/
  | bset (addr : Nat) (bit : Nat)
  /-- `nop` at `asm_done`. -/
  | nop
deriving DecidableEq

/-- Event trace of the `bootl_check` arm. -/
def bootl_check_events (mem480b : Nat) : List SEvent :=
  [SEvent.load 0x480b] ++
    (if mem480b = 0x55 then [SEvent.bset 0x5005 4] else [SEvent.bset 0x5005 5])

/-- Event trace of the assembly decision tree, from the load of
`0x8000` through the `nop` at `asm_done`. -/
def decision_tree_events (mem8000 mem480b : Nat) : List SEvent :=
  [SEvent.load 0x8000] ++
    (if mem8000 = 0x82 then bootl_check_events mem480b
     else if mem8000 = 0xac then bootl_check_events mem480b
     else [SEvent.bset 0x5005 4]) ++
  [SEvent.nop]

/-- Event trace of one whole run of `check_empty.c`: the PB1 trigger
write, the decision tree, and — only in the `ALWAYS_SUCCESS` build — a
final unconditional `bset` of PB4.  The register-configuration writes
before the trigger touch no observable pin level and load no address. -/
def check_empty_trace (mem8000 mem480b : Nat) (always_success : Bool) : List SEvent :=
  [SEvent.trigHigh] ++ decision_tree_events mem8000 mem480b ++
    (if always_success then [SEvent.bset 0x5005 4] else [])

end STM8L

namespace RP2040

set_option maxRecDepth 100000 in
lemma asm_block_result_eq : asm_block_result = 256 := by decide

set_option maxRecDepth 100000 in
lemma run_cycle (s : RpState) :
    run s cycle_trace =
      { primask := s.primask, savedPrimask := s.primask, led := false,
        gpio0 := false, counter := 256, output := s.output ++ [reply 256] } := rfl

lemma main_loop_output (lines : List String) (s : RpState) :
    (main_loop lines s).output = s.output ++ lines.map (fun _ => reply 256) := by
  induction lines generalizing s with
  | nil => simp [main_loop]
  | cons l ls ih =>
      have h1 : main_loop (l :: ls) s = main_loop ls (run s cycle_trace) := rfl
      rw [h1, ih, run_cycle]
      simp

set_option maxRecDepth 100000 in
/-- Claim C1: in every measurement cycle on a non-faulted device, the
counter register is zeroed immediately before the unrolled sequence,
then incremented by exactly 256 straight-line add-immediate-1
instructions (formed by binary doubling of a single increment, with no
branches, memory accesses or calls in the measured window), then stored,
so the stored and reported counter equals 256.  `add256` consists of 256
copies of `addImm1` and of nothing else; folding them from the zeroed
register yields 256; after any measurement cycle the stored counter is
256 and the reported line is the reply for 256. -/
theorem C1_workload_counts_to_256 :
    add256 = List.replicate 256 ArmInstr.addImm1 ∧
    asm_block_result = 256 ∧
    ∀ s : RpState, (run s cycle_trace).counter = 256 ∧
      (run s cycle_trace).output = s.output ++ [reply 256] := by
  refine ⟨by decide, asm_block_result_eq, fun s => ?_⟩
  rw [run_cycle]
  exact ⟨rfl, rfl⟩

set_option maxRecDepth 100000 in
/-- Claim C2: for every received input line (its content ignored, empty
lines included) exactly one reply line is emitted; every reply is
`XXX256YYY256ZZZ`, which matches `^XXX([0-9]+)YYY\1ZZZ$` with the two
occurrences of the capture group equal and the capture group equal to
the compile-time workload size 256. -/
theorem C2_one_reply_per_line :
    (∀ lines : List String,
        (main_loop lines initState).output = lines.map (fun _ => reply 256)) ∧
    reply 256 = "XXX" ++ "256" ++ "YYY" ++ "256" ++ "ZZZ" ∧
    matchesReplyPattern (reply 256) := by
  refine ⟨fun lines => ?_, by decide, ⟨"256", by decide, by decide, by decide⟩⟩
  rw [main_loop_output]
  simp [initState]

/-- Claim C3 as stated is false on the code: in the measurement cycle
the trigger GPIOs are NOT driven high before the critical section (the
interrupts-disabled region between `save_and_disable_interrupts` and
`restore_interrupts`) begins, nor driven low after it ends — the save
is the first event of the cycle and the restore follows the last GPIO
write, so all four GPIO writes happen inside the critical section. -/
theorem C3_counterexample :
    ¬ (cycle_trace.indexOf (Event.gpioPut PICO_DEFAULT_LED_PIN true) <
         cycle_trace.indexOf Event.saveDisable ∧
       cycle_trace.indexOf (Event.gpioPut 0 true) <
         cycle_trace.indexOf Event.saveDisable ∧
       cycle_trace.indexOf Event.restore <
         cycle_trace.indexOf (Event.gpioPut 0 false) ∧
       cycle_trace.indexOf Event.restore <
         cycle_trace.indexOf (Event.gpioPut PICO_DEFAULT_LED_PIN false)) := by
  decide

/-- Claim C3, amended: the two trigger GPIOs are driven high after the
critical section begins (after the interrupt-mask save) and driven low
before it ends (before the restore), so both trigger edges happen
inside the interrupts-disabled region, bracketing the workload. -/
theorem C3_amended_edges_inside_critical_section :
    Event.saveDisable ∈ cycle_trace ∧ Event.restore ∈ cycle_trace ∧
    Event.gpioPut PICO_DEFAULT_LED_PIN true ∈ cycle_trace ∧
    Event.gpioPut 0 true ∈ cycle_trace ∧
    Event.gpioPut 0 false ∈ cycle_trace ∧
    Event.gpioPut PICO_DEFAULT_LED_PIN false ∈ cycle_trace ∧
    cycle_trace.indexOf Event.saveDisable <
      cycle_trace.indexOf (Event.gpioPut PICO_DEFAULT_LED_PIN true) ∧
    cycle_trace.indexOf Event.saveDisable <
      cycle_trace.indexOf (Event.gpioPut 0 true) ∧
    cycle_trace.indexOf (Event.gpioPut 0 false) <
      cycle_trace.indexOf Event.restore ∧
    cycle_trace.indexOf (Event.gpioPut PICO_DEFAULT_LED_PIN false) <
      cycle_trace.indexOf Event.restore := by
  decide

set_option maxRecDepth 100000 in
/-- Claim C6: the measurement cycle contains exactly one interrupt-mask
save and exactly one restore; just before the restore the snapshot held
in the local variable equals the pre-cycle `PRIMASK` and interrupts are
disabled (`PRIMASK = 1`); after the cycle the interrupt-mask state
equals the state before it.  (`cycle_trace.take 6` is the cycle up to,
but not including, the restore.) -/
theorem C6_save_restore_pairing :
    cycle_trace.count Event.saveDisable = 1 ∧
    cycle_trace.count Event.restore = 1 ∧
    ∀ s : RpState,
      (run s (cycle_trace.take 6)).savedPrimask = s.primask ∧
      (run s (cycle_trace.take 6)).primask = 1 ∧
      (run s cycle_trace).primask = s.primask := by
  refine ⟨by decide, by decide, fun s => ⟨rfl, rfl, ?_⟩⟩
  rw [run_cycle]

/-- Claim C7: in every measurement cycle the four trigger edges and the
workload occur in the order LED-high, GPIO0-high, workload, GPIO0-low,
LED-low. -/
theorem C7_edge_order :
    Event.gpioPut PICO_DEFAULT_LED_PIN true ∈ cycle_trace ∧
    Event.gpioPut 0 true ∈ cycle_trace ∧
    Event.workload ∈ cycle_trace ∧
    Event.gpioPut 0 false ∈ cycle_trace ∧
    Event.gpioPut PICO_DEFAULT_LED_PIN false ∈ cycle_trace ∧
    cycle_trace.indexOf (Event.gpioPut PICO_DEFAULT_LED_PIN true) <
      cycle_trace.indexOf (Event.gpioPut 0 true) ∧
    cycle_trace.indexOf (Event.gpioPut 0 true) <
      cycle_trace.indexOf Event.workload ∧
    cycle_trace.indexOf Event.workload <
      cycle_trace.indexOf (Event.gpioPut 0 false) ∧
    cycle_trace.indexOf (Event.gpioPut 0 false) <
      cycle_trace.indexOf (Event.gpioPut PICO_DEFAULT_LED_PIN false) := by
  decide

set_option maxRecDepth 100000 in
/-- Claim C8: issuing the same command line K times yields K identical
reply lines, from any starting machine state: the counter is recomputed
from zero each cycle, so each reply is `reply 256` regardless of the
line's content and of how many cycles preceded it. -/
theorem C8_replay_identical (K : Nat) (cmd : String) (s : RpState) :
    (main_loop (List.replicate K cmd) s).output =
      s.output ++ List.replicate K (reply 256) := by
  rw [main_loop_output]
  simp [List.map_replicate]

end RP2040

namespace STM8L

lemma shl_one_eq_pow (k : Nat) : 1 <<< k = 2 ^ k := by
  rw [Nat.shiftLeft_eq, one_mul]

lemma testBit_pin_false (k i : Nat) (h : i ≠ k) : Nat.testBit (1 <<< k) i = false := by
  rw [shl_one_eq_pow]
  exact Nat.testBit_two_pow_of_ne (fun hh => h hh.symm)

lemma testBit_mask50_false (i : Nat) (h1 : i ≠ 1) (h4 : i ≠ 4) (h5 : i ≠ 5) :
    Nat.testBit 50 i = false := by
  have e : (50 : Nat) = 2 ||| 16 ||| 32 := by decide
  have a2 : Nat.testBit 2 i = false := testBit_pin_false 1 i h1
  have a16 : Nat.testBit 16 i = false := testBit_pin_false 4 i h4
  have a32 : Nat.testBit 32 i = false := testBit_pin_false 5 i h5
  rw [e, Nat.testBit_or, Nat.testBit_or, a2, a16, a32]
  rfl

/-- Claim C4: the STM8L branch decision.  In general (first conjunct):
starting from reset, PB4 ends high exactly when the byte at `0x8000` is
not `0x82`/`0xAC` (rdp-check taken directly) or the option byte at
`0x480B` is `0x55`; PB5 ends high exactly when the byte at `0x8000` is
`0x82`/`0xAC` and the option byte differs from `0x55`.  In particular:
`(0x8000 = 0xAC, 0x480B = 0x55)` gives PB4 high, PB5 low;
`(0x8000 = 0xAC, 0x480B = 0x00)` gives PB5 high, PB4 low;
`(0x8000 = 0x00, any option byte)` gives PB4 high, PB5 low. -/
theorem C4_branch_decision :
    (∀ f o : Nat,
      (check_empty_run f o false resetState).PB_ODR.testBit 4 =
          (if f = 0x82 ∨ f = 0xac then decide (o = 0x55) else true) ∧
      (check_empty_run f o false resetState).PB_ODR.testBit 5 =
          (if f = 0x82 ∨ f = 0xac then decide (o ≠ 0x55) else false)) ∧
    ((check_empty_run 0xac 0x55 false resetState).PB_ODR.testBit 4 = true ∧
     (check_empty_run 0xac 0x55 false resetState).PB_ODR.testBit 5 = false) ∧
    ((check_empty_run 0xac 0x00 false resetState).PB_ODR.testBit 5 = true ∧
     (check_empty_run 0xac 0x00 false resetState).PB_ODR.testBit 4 = false) ∧
    (∀ o : Nat,
      (check_empty_run 0x00 o false resetState).PB_ODR.testBit 4 = true ∧
      (check_empty_run 0x00 o false resetState).PB_ODR.testBit 5 = false) := by
  refine ⟨fun f o => ?_, ⟨by decide, by decide⟩, ⟨by decide, by decide⟩, fun o => ?_⟩
  · by_cases h1 : f = 0x82 <;> by_cases h2 : f = 0xac <;> by_cases h3 : o = 0x55 <;>
      simp [check_empty_run, decision_tree, bootl_check, rdp_check, enter_app,
            resetState, TRIG_PIN, SUCCESS_PIN, EXPECTED_PIN, h1, h2, h3] <;> decide
  · simp [check_empty_run, decision_tree, rdp_check, resetState,
          TRIG_PIN, SUCCESS_PIN, EXPECTED_PIN]
    decide

/-- Claim C5: in any single run of the probe not built with
`ALWAYS_SUCCESS`, at most one of the PB4 (SUCCESS) and PB5 (EXPECTED)
bit-set instructions executes, and each executes at most once; the PB1
trigger write executes exactly once and is the very first observable
event of the run, hence before either pin assertion and before any
address load. -/
theorem C5_single_assertion (f o : Nat) :
    ((check_empty_trace f o false).count (SEvent.bset 0x5005 4) = 0 ∨
     (check_empty_trace f o false).count (SEvent.bset 0x5005 5) = 0) ∧
    (check_empty_trace f o false).count (SEvent.bset 0x5005 4) ≤ 1 ∧
    (check_empty_trace f o false).count (SEvent.bset 0x5005 5) ≤ 1 ∧
    (check_empty_trace f o false).count SEvent.trigHigh = 1 ∧
    (check_empty_trace f o false).head? = some SEvent.trigHigh := by
  by_cases h1 : f = 0x82 <;> by_cases h2 : f = 0xac <;> by_cases h3 : o = 0x55 <;>
    simp [check_empty_trace, decision_tree_events, bootl_check_events, h1, h2, h3]

/-- Claim C9: in the `ALWAYS_SUCCESS` build, PB4 (SUCCESS) is high after
the run for every flash byte, every option byte and every entry register
state, regardless of the branch the decision tree took. -/
theorem C9_always_success (f o : Nat) (s0 : Stm8lState) :
    (check_empty_run f o true s0).PB_ODR.testBit 4 = true := by
  simp [check_empty_run, Nat.testBit_or]
  exact Or.inr (by decide)

/-- Claim C10: the probe configures port B only through read-modify-write
OR operations with the mask for PB1, PB4, PB5, so every other port-B
bit (in particular PB0, PB2, PB3, PB6, PB7) of `PB_DDR`, `PB_CR1`,
`PB_CR2` and `PB_ODR` is left exactly as it was at entry, in both
builds and on every branch. -/
theorem C10_port_b_frame (f o : Nat) (a : Bool) (s0 : Stm8lState) (i : Nat)
    (h1 : i ≠ 1) (h4 : i ≠ 4) (h5 : i ≠ 5) :
    (check_empty_run f o a s0).PB_DDR.testBit i = s0.PB_DDR.testBit i ∧
    (check_empty_run f o a s0).PB_CR1.testBit i = s0.PB_CR1.testBit i ∧
    (check_empty_run f o a s0).PB_CR2.testBit i = s0.PB_CR2.testBit i ∧
    (check_empty_run f o a s0).PB_ODR.testBit i = s0.PB_ODR.testBit i := by
  have a2 : Nat.testBit 2 i = false := testBit_pin_false 1 i h1
  have a16 : Nat.testBit 16 i = false := testBit_pin_false 4 i h4
  have a32 : Nat.testBit 32 i = false := testBit_pin_false 5 i h5
  have a50 : Nat.testBit 50 i = false := testBit_mask50_false i h1 h4 h5
  cases a <;> by_cases hf1 : f = 0x82 <;> by_cases hf2 : f = 0xac <;> by_cases ho : o = 0x55 <;>
    simp [check_empty_run, decision_tree, bootl_check, rdp_check, enter_app,
          TRIG_PIN, SUCCESS_PIN, EXPECTED_PIN, Nat.testBit_or,
          a2, a16, a32, a50, hf1, hf2, ho]

/-- Witness for claim C10 at a concrete input: bit 3 (PB3) of every
port-B register is unchanged by a run with flash byte `0xAC`, option
byte `0x00`, in the `ALWAYS_SUCCESS` build, from reset. -/
theorem C10_port_b_frame_witness :
    (3 : Nat) ≠ 1 ∧ (3 : Nat) ≠ 4 ∧ (3 : Nat) ≠ 5 ∧
    ((check_empty_run 0xac 0x00 true resetState).PB_DDR.testBit 3 =
        resetState.PB_DDR.testBit 3 ∧
     (check_empty_run 0xac 0x00 true resetState).PB_CR1.testBit 3 =
        resetState.PB_CR1.testBit 3 ∧
     (check_empty_run 0xac 0x00 true resetState).PB_CR2.testBit 3 =
        resetState.PB_CR2.testBit 3 ∧
     (check_empty_run 0xac 0x00 true resetState).PB_ODR.testBit 3 =
        resetState.PB_ODR.testBit 3) :=
  ⟨by decide, by decide, by decide,
   C10_port_b_frame 0xac 0x00 true resetState 3 (by decide) (by decide) (by decide)⟩

end STM8L
